import Mathlib

/-!
Verification of `caffe2/core/operator_schema.h`: the `OpSchema` constraint
builder and validator, and the `OpSchemaRegistry` name-to-schema store.

The header declares the classes, the default state (`OpSchema::Init`), the
sentinel `kCannotComputeNumOutputs`, and gives inline bodies for
`OpSchemaRegistry::NewSchema` and `OpSchemaRegistry::Schema`.  The bodies of
`OpSchema::Verify`, `OpSchema::CalculateOutput` and the fluent setters live in
a `.cc` translation unit that is not part of the sources; those are modelled
from the specification, as marked on each definition.
-/

namespace Caffe2

/-- From `operator_schema.h:18`: `constexpr int kCannotComputeNumOutputs = -1;`,
the value returned by `OpSchema::CalculateOutput` when the number of outputs
cannot be determined. -/
def kCannotComputeNumOutputs : Int := -1

/-- `std::numeric_limits<int>::max()`, used by `OpSchema::Init`
(`operator_schema.h:126,128`) as the default upper arity bound. -/
def intMax : Int := 2147483647

/-- The part of the `OperatorDef` protobuf that `OpSchema` consumes: the
ordered input and output slot identities.  Two slots alias exactly when their
identities are equal. -/
structure OperatorDef where
  input : List String
  output : List String

/-- The state of an `OpSchema` object: the private fields declared at
`operator_schema.h:136-147`.  `calculate_output_` is a `std::function` that is
empty by default, modelled as an `Option`.  Index predicates take the
(non-negative) slot indices. -/
structure OpSchema where
  file_ : String
  line_ : Int
  min_input_ : Int
  max_input_ : Int
  num_inputs_allowed_ : Nat → Bool
  min_output_ : Int
  max_output_ : Int
  num_outputs_allowed_ : Nat → Bool
  calculate_output_ : Option (Int → Int)
  inplace_allowed_ : Nat → Nat → Bool
  inplace_enforced_ : Nat → Nat → Bool

/-- The constructor `OpSchema(file, line)` followed by `Init()`
(`operator_schema.h:38-39,124-134`): provenance is stored and every
constraint field takes its default (unconstrained) value. -/
def OpSchema.init (file : String) (line : Int) : OpSchema where
  file_ := file
  line_ := line
  min_input_ := 0
  max_input_ := intMax
  num_inputs_allowed_ := fun _ => true
  min_output_ := 0
  max_output_ := intMax
  num_outputs_allowed_ := fun _ => true
  calculate_output_ := none
  inplace_allowed_ := fun _ _ => false
  inplace_enforced_ := fun _ _ => false

/-- `OpSchema::file()` (`operator_schema.h:44`). -/
def OpSchema.file (s : OpSchema) : String := s.file_

/-- `OpSchema::line()` (`operator_schema.h:49`). -/
def OpSchema.line (s : OpSchema) : Int := s.line_

/-- Modelled from the spec: the body of `OpSchema::NumInputs(int n)`
(declared `operator_schema.h:63`) is not under src/.  Per §4.1 it sets the
input arity to "count == n", fully replacing the prior input constraint. -/
def OpSchema.NumInputs (s : OpSchema) (n : Int) : OpSchema :=
  { s with min_input_ := n, max_input_ := n, num_inputs_allowed_ := fun _ => true }

/-- Modelled from the spec: the body of `OpSchema::NumInputs(int min, int max)`
(declared `operator_schema.h:67`) is not under src/.  Per §4.1 it sets the
input arity to "min ≤ count ≤ max", inclusive on both ends. -/
def OpSchema.NumInputsRange (s : OpSchema) (lo hi : Int) : OpSchema :=
  { s with min_input_ := lo, max_input_ := hi, num_inputs_allowed_ := fun _ => true }

/-- Modelled from the spec: the body of `OpSchema::NumInputs(set<int>)`
(declared `operator_schema.h:71`) is not under src/.  Per §4.1 it sets the
input arity to "count ∈ allowed_input_nums". -/
def OpSchema.NumInputsSet (s : OpSchema) (allowed : List Nat) : OpSchema :=
  { s with min_input_ := 0, max_input_ := intMax,
           num_inputs_allowed_ := fun n => allowed.contains n }

/-- Modelled from the spec: the body of
`OpSchema::NumInputs(std::function<bool(int)>)` (declared
`operator_schema.h:75`) is not under src/.  Per §4.1 it sets the input arity
to the supplied predicate. -/
def OpSchema.NumInputsFn (s : OpSchema) (func : Nat → Bool) : OpSchema :=
  { s with min_input_ := 0, max_input_ := intMax, num_inputs_allowed_ := func }

/-- Modelled from the spec: the body of `OpSchema::NumOutputs(int n)`
(declared `operator_schema.h:83`) is not under src/.  Mirror of
`NumInputs(int)` for the output arity. -/
def OpSchema.NumOutputs (s : OpSchema) (n : Int) : OpSchema :=
  { s with min_output_ := n, max_output_ := n, num_outputs_allowed_ := fun _ => true }

/-- Modelled from the spec: the body of `OpSchema::NumOutputs(int min, int max)`
(declared `operator_schema.h:87`) is not under src/.  Mirror of
`NumInputs(int, int)` for the output arity. -/
def OpSchema.NumOutputsRange (s : OpSchema) (lo hi : Int) : OpSchema :=
  { s with min_output_ := lo, max_output_ := hi, num_outputs_allowed_ := fun _ => true }

/-- Modelled from the spec: the body of `OpSchema::NumOutputs(set<int>)`
(declared `operator_schema.h:91`) is not under src/.  Mirror of
`NumInputs(set<int>)` for the output arity. -/
def OpSchema.NumOutputsSet (s : OpSchema) (allowed : List Nat) : OpSchema :=
  { s with min_output_ := 0, max_output_ := intMax,
           num_outputs_allowed_ := fun n => allowed.contains n }

/-- Modelled from the spec: the body of
`OpSchema::NumOutputs(std::function<bool(int)>)` (declared
`operator_schema.h:95`) is not under src/.  Mirror of
`NumInputs(std::function)` for the output arity. -/
def OpSchema.NumOutputsFn (s : OpSchema) (func : Nat → Bool) : OpSchema :=
  { s with min_output_ := 0, max_output_ := intMax, num_outputs_allowed_ := func }

/-- Modelled from the spec: the body of `OpSchema::OutputCalculator`
(declared `operator_schema.h:102`) is not under src/.  Per §4.1 it sets
`output_calculator` to the supplied input-count → output-count function. -/
def OpSchema.OutputCalculator (s : OpSchema) (c : Int → Int) : OpSchema :=
  { s with calculate_output_ := some c }

/-- Modelled from the spec: the body of `OpSchema::SameNumberOfOutput`
(declared `operator_schema.h:106`) is not under src/.  Per §4.1 it sets
`output_calculator` to the identity function. -/
def OpSchema.SameNumberOfOutput (s : OpSchema) : OpSchema :=
  { s with calculate_output_ := some (fun n => n) }

/-- Modelled from the spec: the body of
`OpSchema::AllowInplace(std::function<bool(int,int)>)` (declared
`operator_schema.h:109`) is not under src/.  Sets `inplace_allowed` to the
supplied predicate over (input-index, output-index). -/
def OpSchema.AllowInplaceFn (s : OpSchema) (inplace : Nat → Nat → Bool) : OpSchema :=
  { s with inplace_allowed_ := inplace }

/-- Modelled from the spec: the body of
`OpSchema::AllowInplace(set<std::pair<int,int>>)` (declared
`operator_schema.h:110`) is not under src/.  Sets `inplace_allowed` to a
finite-set membership test. -/
def OpSchema.AllowInplaceSet (s : OpSchema) (inplace : List (Nat × Nat)) : OpSchema :=
  { s with inplace_allowed_ := fun i j => inplace.contains (i, j) }

/-- Modelled from the spec: the body of `OpSchema::AllowOneToOneInplace`
(declared `operator_schema.h:111`) is not under src/.  Per §4.1 it sets
`inplace_allowed` to "input-index == output-index". -/
def OpSchema.AllowOneToOneInplace (s : OpSchema) : OpSchema :=
  { s with inplace_allowed_ := fun i j => i == j }

/-- Modelled from the spec: the body of
`OpSchema::EnforceInplace(std::function<bool(int,int)>)` (declared
`operator_schema.h:113`) is not under src/.  Sets `inplace_enforced` to the
supplied predicate. -/
def OpSchema.EnforceInplaceFn (s : OpSchema) (inplace : Nat → Nat → Bool) : OpSchema :=
  { s with inplace_enforced_ := inplace }

/-- Modelled from the spec: the body of
`OpSchema::EnforceInplace(set<std::pair<int,int>>)` (declared
`operator_schema.h:114`) is not under src/.  Sets `inplace_enforced` to a
finite-set membership test. -/
def OpSchema.EnforceInplaceSet (s : OpSchema) (inplace : List (Nat × Nat)) : OpSchema :=
  { s with inplace_enforced_ := fun i j => inplace.contains (i, j) }

/-- Modelled from the spec: the body of `OpSchema::EnforceOneToOneInplace`
(declared `operator_schema.h:115`) is not under src/.  Per §4.1 it sets
`inplace_enforced` to "input-index == output-index". -/
def OpSchema.EnforceOneToOneInplace (s : OpSchema) : OpSchema :=
  { s with inplace_enforced_ := fun i j => i == j }

/-- Modelled from the spec: the body of `OpSchema::CalculateOutput`
(declared `operator_schema.h:121`) is not under src/.  Per §4.1: if
`output_calculator` is set, return it applied to `num_input`; otherwise
return the sentinel `kCannotComputeNumOutputs`. -/
def OpSchema.CalculateOutput (s : OpSchema) (num_input : Int) : Int :=
  match s.calculate_output_ with
  | some c => c num_input
  | none => kCannotComputeNumOutputs

/-- The conceptual input-arity predicate of a schema state: the count must
lie in `[min_input_, max_input_]` and satisfy `num_inputs_allowed_`. -/
def OpSchema.inputArityOk (s : OpSchema) (nin : Nat) : Bool :=
  decide (s.min_input_ ≤ (nin : Int)) && decide ((nin : Int) ≤ s.max_input_)
    && s.num_inputs_allowed_ nin

/-- The conceptual output-arity predicate of a schema state. -/
def OpSchema.outputArityOk (s : OpSchema) (nout : Nat) : Bool :=
  decide (s.min_output_ ≤ (nout : Int)) && decide ((nout : Int) ≤ s.max_output_)
    && s.num_outputs_allowed_ nout

/-- One step of the pairwise aliasing check of `Verify` at input index `i`
and output index `j`: unauthorized aliasing fails, missing required aliasing
fails. -/
def OpSchema.pairOk (s : OpSchema) (d : OperatorDef) (i j : Nat) : Bool :=
  (!(d.input.getD i "" == d.output.getD j "") || s.inplace_allowed_ i j) &&
  ((d.input.getD i "" == d.output.getD j "") || !(s.inplace_enforced_ i j))

/-- Modelled from the spec: the body of `OpSchema::Verify` (declared
`operator_schema.h:55`) is not under src/.  Per §4.1: check the input arity,
the output arity, the output calculator (authoritative when set), and then
every pair (input index, output index) for the two-sided aliasing condition. -/
def OpSchema.Verify (s : OpSchema) (d : OperatorDef) : Bool :=
  s.inputArityOk d.input.length &&
  s.outputArityOk d.output.length &&
  (match s.calculate_output_ with
   | some c => decide (c (d.input.length : Int) = (d.output.length : Int))
   | none => true) &&
  ((List.range d.input.length).all fun i =>
    (List.range d.output.length).all fun j => s.pairOk d i j)

/-- The diagnostic surfaced by `OpSchemaRegistry::NewSchema` on a duplicate
registration (`operator_schema.h:160-163`): the key, the new registration's
source location, and the original registration's source location, after
which the process aborts. -/
structure DuplicateRegistrationError where
  key : String
  newFile : String
  newLine : Int
  origFile : String
  origLine : Int
deriving DecidableEq

/-- The registry map wrapped by `OpSchemaRegistry::map()`
(`operator_schema.h:184`), modelled as an association list in insertion
order. -/
abbrev CaffeMap := List (String × OpSchema)

/-- `OpSchemaRegistry::NewSchema` (`operator_schema.h:155-168`): if `key` is
already present, print the new and original source locations and `abort()`
(modelled as returning the diagnostic as an error — the function never
returns normally in that case); otherwise emplace a fresh
`OpSchema(file, line)` under `key`. -/
def OpSchemaRegistry.NewSchema (m : CaffeMap) (key file : String) (line : Int) :
    Except DuplicateRegistrationError CaffeMap :=
  match List.lookup key m with
  | some schema => .error ⟨key, file, line, schema.file_, schema.line_⟩
  | none => .ok (m ++ [(key, OpSchema.init file line)])

/-- `OpSchemaRegistry::Schema` (`operator_schema.h:170-177`): return the
registered schema for `key`, or the null pointer (modelled as `none`) when
`key` is absent. -/
def OpSchemaRegistry.Schema (m : CaffeMap) (key : String) : Option OpSchema :=
  List.lookup key m

end Caffe2

namespace Caffe2

/-- If some in-range pair (i, j) fails the aliasing condition, the whole
`Verify` fails. -/
lemma verify_false_of_pairOk_false (s : OpSchema) (d : OperatorDef) (i j : Nat)
    (hi : i < d.input.length) (hj : j < d.output.length)
    (hp : s.pairOk d i j = false) : s.Verify d = false := by
  have hE : ((List.range d.input.length).all fun i =>
      (List.range d.output.length).all fun j => s.pairOk d i j) = false := by
    rw [Bool.eq_false_iff]
    intro hall
    have h1 := List.all_eq_true.mp hall i (List.mem_range.mpr hi)
    have h2 := List.all_eq_true.mp h1 j (List.mem_range.mpr hj)
    rw [hp] at h2
    exact Bool.false_ne_true h2
  simp [OpSchema.Verify, hE]

end Caffe2

namespace Caffe2

/-- C1: `Verify` performs a two-sided aliasing check over every pair of input
index i and output index j: aliased but not allowed fails, not aliased but
enforced fails.  For the schema `NumInputs(2).NumOutputs(1).AllowOneToOneInplace()`,
inputs [A, B] with output [A] verify as true, and inputs [A, B] with output
[B] verify as false. -/
theorem verify_two_sided_aliasing_check :
    (∀ (s : OpSchema) (d : OperatorDef) (i j : Nat),
      i < d.input.length → j < d.output.length →
      ((d.input.getD i "" = d.output.getD j "" ∧ s.inplace_allowed_ i j = false) ∨
       (d.input.getD i "" ≠ d.output.getD j "" ∧ s.inplace_enforced_ i j = true)) →
      s.Verify d = false) ∧
    ((((OpSchema.init "f" 0).NumInputs 2).NumOutputs 1).AllowOneToOneInplace).Verify
        ⟨["A", "B"], ["A"]⟩ = true ∧
    ((((OpSchema.init "f" 0).NumInputs 2).NumOutputs 1).AllowOneToOneInplace).Verify
        ⟨["A", "B"], ["B"]⟩ = false := by
  refine ⟨?_, by decide, by decide⟩
  intro s d i j hi hj hcase
  apply verify_false_of_pairOk_false s d i j hi hj
  rcases hcase with ⟨hal, hna⟩ | ⟨hal, hen⟩
  · have ha : (d.input.getD i "" == d.output.getD j "") = true := beq_iff_eq.mpr hal
    simp only [OpSchema.pairOk]
    rw [ha, hna]
    rfl
  · have ha : (d.input.getD i "" == d.output.getD j "") = false :=
      beq_eq_false_iff_ne.mpr hal
    simp only [OpSchema.pairOk]
    rw [ha, hen]
    rfl

/-- C1 witness: the general aliasing clause applied at a concrete schema and
instance — the default schema disallows aliasing, so an instance whose sole
output aliases its sole input fails `Verify`. -/
theorem verify_two_sided_aliasing_check_witness :
    (OpSchema.init "f" 0).Verify ⟨["A"], ["A"]⟩ = false :=
  verify_two_sided_aliasing_check.1 (OpSchema.init "f" 0) ⟨["A"], ["A"]⟩ 0 0
    (by decide) (by decide) (Or.inl ⟨rfl, rfl⟩)

/-- C2: when the output calculator is set, `Verify` returns false whenever
the calculator applied to the input count differs from the output count,
whatever the independently declared output arity says. -/
theorem verify_output_calculator_authoritative (s : OpSchema) (c : Int → Int)
    (d : OperatorDef) (hc : s.calculate_output_ = some c)
    (hne : c (d.input.length : Int) ≠ (d.output.length : Int)) :
    s.Verify d = false := by
  simp [OpSchema.Verify, hc, hne]

/-- C2 witness: a schema whose declared output arity admits 2 outputs but
whose calculator demands 1 rejects an instance with 1 input and 2 outputs. -/
theorem verify_output_calculator_authoritative_witness :
    ((((OpSchema.init "f" 0).NumOutputsRange 0 10).OutputCalculator
        (fun n => n)).Verify ⟨["A"], ["X", "Y"]⟩) = false :=
  verify_output_calculator_authoritative _ (fun n => n) _ rfl (by decide)

/-- C3: registering a second schema under a name already present is fatal:
`NewSchema` surfaces a diagnostic containing the new registration's source
location and the original registration's source location and aborts
(modelled as an error value; it never returns normally), regardless of the
new registration's constraints. -/
theorem new_schema_duplicate_fatal (m : CaffeMap) (key file : String)
    (line : Int) (s : OpSchema) (h : List.lookup key m = some s) :
    OpSchemaRegistry.NewSchema m key file line =
      Except.error ⟨key, file, line, s.file_, s.line_⟩ := by
  simp [OpSchemaRegistry.NewSchema, h]

/-- C3 witness: re-registering "Add" reports the new location (b.cc:7) and
the original one (a.cc:3). -/
theorem new_schema_duplicate_fatal_witness :
    OpSchemaRegistry.NewSchema [("Add", OpSchema.init "a.cc" 3)] "Add" "b.cc" 7 =
      Except.error ⟨"Add", "b.cc", 7, "a.cc", 3⟩ :=
  new_schema_duplicate_fatal _ "Add" "b.cc" 7 (OpSchema.init "a.cc" 3) rfl

/-- C4: looking up a name that was never registered returns the explicit
absence value `none` (the null pointer), never a default schema. -/
theorem schema_lookup_absent_none (m : CaffeMap) (key : String)
    (h : ∀ p ∈ m, p.1 ≠ key) : OpSchemaRegistry.Schema m key = none := by
  induction m with
  | nil => rfl
  | cons p t ih =>
    obtain ⟨k, v⟩ := p
    have hk : k ≠ key := h (k, v) (List.mem_cons_self _ _)
    have hbeq : (key == k) = false := beq_eq_false_iff_ne.mpr (Ne.symm hk)
    have ht := ih fun q hq => h q (List.mem_cons_of_mem _ hq)
    simp only [OpSchemaRegistry.Schema, List.lookup, hbeq] at ht ⊢
    exact ht

/-- C4 witness: a registry holding only "Add" answers `none` for "Mul". -/
theorem schema_lookup_absent_none_witness :
    OpSchemaRegistry.Schema [("Add", OpSchema.init "a.cc" 3)] "Mul" = none :=
  schema_lookup_absent_none _ "Mul" (by
    rintro p hp
    rw [List.mem_singleton] at hp
    subst hp
    decide)

/-- C5: with no output calculator set, `CalculateOutput` returns the sentinel
`kCannotComputeNumOutputs` for every input count; the sentinel is -1, outside
the valid output-count domain; with a calculator set, `CalculateOutput`
applies it. -/
theorem calculate_output_sentinel (s : OpSchema) (n : Int) (c : Int → Int) :
    (s.calculate_output_ = none →
      s.CalculateOutput n = kCannotComputeNumOutputs) ∧
    (s.calculate_output_ = some c → s.CalculateOutput n = c n) ∧
    kCannotComputeNumOutputs = -1 ∧ kCannotComputeNumOutputs < 0 := by
  refine ⟨?_, ?_, rfl, by decide⟩ <;> intro h <;> simp [OpSchema.CalculateOutput, h]

/-- C5 witness: a fresh schema's `CalculateOutput` at input count 0 is the
sentinel. -/
theorem calculate_output_sentinel_witness :
    (OpSchema.init "f" 0).CalculateOutput 0 = kCannotComputeNumOutputs :=
  (calculate_output_sentinel (OpSchema.init "f" 0) 0 (fun n => n)).1 rfl

end Caffe2

namespace Caffe2

/-- C6: after `NumInputs(n)` with n ≥ 0, `Verify` accepts only instances whose
input count equals n: any other input count makes `Verify` return false. -/
theorem verify_num_inputs_exact (s : OpSchema) (n : Int) (hn : 0 ≤ n)
    (d : OperatorDef) (hne : (d.input.length : Int) ≠ n) :
    (s.NumInputs n).Verify d = false := by
  have h : (s.NumInputs n).inputArityOk d.input.length = false := by
    simp only [OpSchema.inputArityOk, OpSchema.NumInputs]
    simp only [Bool.and_true]
    rw [Bool.eq_false_iff]
    intro hc
    rcases Bool.and_eq_true _ _ |>.mp hc with ⟨h1, h2⟩
    exact hne (le_antisymm (of_decide_eq_true h2) (of_decide_eq_true h1))
  simp [OpSchema.Verify, h]

/-- C6 witness: a schema fixed at 2 inputs rejects a 1-input instance. -/
theorem verify_num_inputs_exact_witness :
    ((OpSchema.init "f" 0).NumInputs 2).Verify ⟨["A"], []⟩ = false :=
  verify_num_inputs_exact (OpSchema.init "f" 0) 2 (by decide) ⟨["A"], []⟩ (by decide)

/-- C7: after `NumInputs(min, max)` the input count must lie in
[min, max] for `Verify` to accept; and on a schema whose only configuration
is `NumInputs(min, max)` (no aliasing at play: no outputs), `Verify` accepts
exactly when min ≤ nin ≤ max, so both boundaries pass and min−1 and max+1
fail. -/
theorem verify_num_inputs_range (s : OpSchema) (lo hi : Int) (d : OperatorDef)
    (inputs : List String) (file : String) (line : Int) :
    ((s.NumInputsRange lo hi).Verify d = true →
      lo ≤ (d.input.length : Int) ∧ (d.input.length : Int) ≤ hi) ∧
    (((OpSchema.init file line).NumInputsRange lo hi).Verify ⟨inputs, []⟩ = true ↔
      lo ≤ (inputs.length : Int) ∧ (inputs.length : Int) ≤ hi) := by
  constructor
  · intro h
    simp only [OpSchema.Verify, OpSchema.inputArityOk, OpSchema.NumInputsRange,
      Bool.and_eq_true, Bool.and_true, decide_eq_true_eq] at h
    tauto
  · rw [OpSchema.Verify]
    simp [OpSchema.inputArityOk, OpSchema.outputArityOk, OpSchema.NumInputsRange,
      OpSchema.init, OpSchema.pairOk, intMax]

/-- C7 witness: with bounds [2, 4], instances with 2 and 4 inputs pass, and
instances with 1 and 5 inputs fail. -/
theorem verify_num_inputs_range_witness :
    ((OpSchema.init "f" 0).NumInputsRange 2 4).Verify ⟨["A", "B"], []⟩ = true ∧
    ((OpSchema.init "f" 0).NumInputsRange 2 4).Verify
      ⟨["A", "B", "C", "D"], []⟩ = true ∧
    ((OpSchema.init "f" 0).NumInputsRange 2 4).Verify ⟨["A"], []⟩ = false ∧
    ((OpSchema.init "f" 0).NumInputsRange 2 4).Verify
      ⟨["A", "B", "C", "D", "E"], []⟩ = false := by
  refine ⟨?_, ?_, ?_, ?_⟩
  · exact (verify_num_inputs_range (OpSchema.init "f" 0) 2 4 ⟨[], []⟩
      ["A", "B"] "f" 0).2.mpr (by decide)
  · exact (verify_num_inputs_range (OpSchema.init "f" 0) 2 4 ⟨[], []⟩
      ["A", "B", "C", "D"] "f" 0).2.mpr (by decide)
  · rw [Bool.eq_false_iff]
    intro h
    have hb := (verify_num_inputs_range (OpSchema.init "f" 0) 2 4 ⟨[], []⟩
      ["A"] "f" 0).2.mp h
    simp at hb
  · rw [Bool.eq_false_iff]
    intro h
    have hb := (verify_num_inputs_range (OpSchema.init "f" 0) 2 4 ⟨[], []⟩
      ["A", "B", "C", "D", "E"] "f" 0).2.mp h
    simp at hb

/-- C8: `SameNumberOfOutput()` sets the output calculator to the identity
function, so a subsequent `CalculateOutput(k)` returns k for every k ≥ 0. -/
theorem same_number_of_output_identity (s : OpSchema) (k : Int) (hk : 0 ≤ k) :
    (s.SameNumberOfOutput).CalculateOutput k = k ∧
    (s.SameNumberOfOutput).calculate_output_ = some (fun n => n) :=
  ⟨rfl, rfl⟩

/-- C8 witness: `CalculateOutput 3` after `SameNumberOfOutput` is 3. -/
theorem same_number_of_output_identity_witness :
    ((OpSchema.init "f" 0).SameNumberOfOutput).CalculateOutput 3 = 3 :=
  (same_number_of_output_identity (OpSchema.init "f" 0) 3 (by decide)).1

/-- C9: with `EnforceOneToOneInplace()` set (and whatever the allowed
relation is, in particular its default always-false state), any instance in
which output i does not alias input i fails `Verify`. -/
theorem verify_enforce_one_to_one_missing_alias (s : OpSchema) (d : OperatorDef)
    (i : Nat) (hi : i < d.input.length) (hio : i < d.output.length)
    (hne : d.input.getD i "" ≠ d.output.getD i "") :
    (s.EnforceOneToOneInplace).Verify d = false := by
  apply verify_false_of_pairOk_false _ _ i i hi hio
  have ha : (d.input.getD i "" == d.output.getD i "") = false :=
    beq_eq_false_iff_ne.mpr hne
  simp only [OpSchema.pairOk, OpSchema.EnforceOneToOneInplace]
  rw [ha]
  simp

/-- C9 witness: a default schema with `EnforceOneToOneInplace` rejects the
instance with input [A] and output [B]. -/
theorem verify_enforce_one_to_one_missing_alias_witness :
    ((OpSchema.init "f" 0).EnforceOneToOneInplace).Verify ⟨["A"], ["B"]⟩ = false :=
  verify_enforce_one_to_one_missing_alias (OpSchema.init "f" 0) ⟨["A"], ["B"]⟩ 0
    (by decide) (by decide) (by decide)

end Caffe2

namespace Caffe2

/-- Looking up a key in an appended association list skips a front segment
in which the key is absent. -/
lemma lookup_append_of_none {β : Type} (m l : List (String × β)) (key : String)
    (h : List.lookup key m = none) :
    List.lookup key (m ++ l) = List.lookup key l := by
  induction m with
  | nil => rfl
  | cons p t ih =>
    obtain ⟨k, v⟩ := p
    by_cases hk : key = k
    · subst hk
      simp [List.lookup] at h
    · have hbeq : (key == k) = false := beq_eq_false_iff_ne.mpr hk
      simp only [List.cons_append, List.lookup, hbeq] at h ⊢
      exact ih h

/-- C10: a successful `NewSchema(key, file, line)` on an empty slot appends a
fresh default schema carrying exactly the given provenance, and a subsequent
`Schema(key)` lookup returns that schema, whose `file()` and `line()` are the
registered values; moreover no fluent setter changes `file()` or `line()`. -/
theorem new_schema_then_lookup_provenance (m : CaffeMap) (key file : String)
    (line : Int) :
    (List.lookup key m = none →
      OpSchemaRegistry.NewSchema m key file line =
        Except.ok (m ++ [(key, OpSchema.init file line)]) ∧
      OpSchemaRegistry.Schema (m ++ [(key, OpSchema.init file line)]) key =
        some (OpSchema.init file line) ∧
      (OpSchema.init file line).file = file ∧
      (OpSchema.init file line).line = line) ∧
    (∀ (s : OpSchema) (n lo hi : Int) (l : List Nat) (f : Nat → Bool)
        (c : Int → Int) (g : Nat → Nat → Bool) (ps : List (Nat × Nat)),
      (s.NumInputs n).file = s.file ∧ (s.NumInputs n).line = s.line ∧
      (s.NumInputsRange lo hi).file = s.file ∧
        (s.NumInputsRange lo hi).line = s.line ∧
      (s.NumInputsSet l).file = s.file ∧ (s.NumInputsSet l).line = s.line ∧
      (s.NumInputsFn f).file = s.file ∧ (s.NumInputsFn f).line = s.line ∧
      (s.NumOutputs n).file = s.file ∧ (s.NumOutputs n).line = s.line ∧
      (s.NumOutputsRange lo hi).file = s.file ∧
        (s.NumOutputsRange lo hi).line = s.line ∧
      (s.NumOutputsSet l).file = s.file ∧ (s.NumOutputsSet l).line = s.line ∧
      (s.NumOutputsFn f).file = s.file ∧ (s.NumOutputsFn f).line = s.line ∧
      (s.OutputCalculator c).file = s.file ∧ (s.OutputCalculator c).line = s.line ∧
      (s.SameNumberOfOutput).file = s.file ∧ (s.SameNumberOfOutput).line = s.line ∧
      (s.AllowInplaceFn g).file = s.file ∧ (s.AllowInplaceFn g).line = s.line ∧
      (s.AllowInplaceSet ps).file = s.file ∧ (s.AllowInplaceSet ps).line = s.line ∧
      (s.AllowOneToOneInplace).file = s.file ∧
        (s.AllowOneToOneInplace).line = s.line ∧
      (s.EnforceInplaceFn g).file = s.file ∧ (s.EnforceInplaceFn g).line = s.line ∧
      (s.EnforceInplaceSet ps).file = s.file ∧
        (s.EnforceInplaceSet ps).line = s.line ∧
      (s.EnforceOneToOneInplace).file = s.file ∧
        (s.EnforceOneToOneInplace).line = s.line) := by
  constructor
  · intro h
    refine ⟨?_, ?_, rfl, rfl⟩
    · simp [OpSchemaRegistry.NewSchema, h]
    · rw [OpSchemaRegistry.Schema, lookup_append_of_none m _ key h]
      simp [List.lookup]
  · intro s n lo hi l f c g ps
    exact ⟨rfl, rfl, rfl, rfl, rfl, rfl, rfl, rfl, rfl, rfl, rfl, rfl, rfl, rfl,
      rfl, rfl, rfl, rfl, rfl, rfl, rfl, rfl, rfl, rfl, rfl, rfl, rfl, rfl,
      rfl, rfl, rfl, rfl⟩

/-- C10 witness: registering "Add" from x.cc line 12 in the empty registry
and looking it up yields a schema whose provenance is x.cc line 12. -/
theorem new_schema_then_lookup_provenance_witness :
    OpSchemaRegistry.NewSchema [] "Add" "x.cc" 12 =
      Except.ok [("Add", OpSchema.init "x.cc" 12)] ∧
    OpSchemaRegistry.Schema [("Add", OpSchema.init "x.cc" 12)] "Add" =
      some (OpSchema.init "x.cc" 12) ∧
    (OpSchema.init "x.cc" 12).file = "x.cc" ∧
    (OpSchema.init "x.cc" 12).line = 12 := by
  have h := (new_schema_then_lookup_provenance [] "Add" "x.cc" 12).1 rfl
  simpa using h

end Caffe2
